import Mathlib

/-!
Verification development for the nova-react-sdk repository: a shallow
embedding of the SDK state reducer (NovaContext), its loader facade
(loadObject / loadObjects / loadAllObjects), the read accessors, the
transport helper (callApi), and the registry-sync CLI, with theorems
settling the specification claims about them.

Modelling conventions:
- JavaScript objects keyed by strings are association lists
  `List (String × α)` with unique keys (JS object keys are unique);
  assignment keeps the position of an existing key and appends new keys,
  matching JS property-update semantics.
- `Record<string, any>` property bags are `Props := List (String × String)`
  (the values are uninterpreted by every operation modelled here).
- Fields a JS runtime object may lack (created by spreading `undefined`)
  are `Option`-typed; `none` is JS `null`/`undefined`.
- `new Date()` is an explicit clock parameter `now : Nat` passed to the
  reducer: each dispatch reads the clock once.
- Network effects are simulated: each loader takes the reply of the network as
  an `Except String _` oracle argument and returns the list of requests it
  issued, the list of actions it dispatched (in order), and its
  return-or-throw outcome.
-/

namespace Nova

/-- Property bag (`Record<string, any>` in the source); values uninterpreted. -/
abbrev Props := List (String × String)

/-- Association-list lookup with JS semantics (first, and only, match). -/
def lookupKey {α : Type} : List (String × α) → String → Option α
  | [], _ => none
  | (k1, v1) :: rest, k => if k1 = k then some v1 else lookupKey rest k

/-- JS property assignment: update an existing key in place, else append. -/
def setKey {α : Type} : List (String × α) → String → α → List (String × α)
  | [], k, v => [(k, v)]
  | (k1, v1) :: rest, k, v =>
      if k1 = k then (k, v) :: rest else (k1, v1) :: setKey rest k v

/-- Structure `NovaConfig` from NovaContext. -/
structure NovaConfig where
  organisationId : String
  appId : String
  apiEndpoint : String
deriving DecidableEq

/-- Type `Partial<NovaConfig>`: each field present or missing. -/
structure PartialConfig where
  organisationId : Option String := none
  appId : Option String := none
  apiEndpoint : Option String := none
deriving DecidableEq

/-- Merge `{ ...state.config, ...payload }` for a `Partial<NovaConfig>` payload. -/
def mergeConfig (c : NovaConfig) (p : PartialConfig) : NovaConfig :=
  { organisationId := p.organisationId.getD c.organisationId
    appId := p.appId.getD c.appId
    apiEndpoint := p.apiEndpoint.getD c.apiEndpoint }

/-- Structure `NovaUser` from NovaContext (`userProfile` may be null,
`novaUserId` optional). -/
structure NovaUser where
  userId : String
  userProfile : Option Props
  novaUserId : Option String := none
deriving DecidableEq

/-- Structure `NovaObject`. The TS interface declares `name` and `defaultProps`
required, but the reducer UPDATE_OBJECT_PROPS / SET_BULK_OBJECTS cases
spread a possibly-missing previous entry, producing runtime objects that
lack them; hence both are `Option`-typed here. `lastFetched` is a clock
reading (`Date` as Nat). -/
structure NovaObject where
  name : Option String
  defaultProps : Option Props
  props : Option Props
  isLoaded : Bool
  lastFetched : Option Nat
deriving DecidableEq

/-- Type `NovaObjects`: the cache, name-keyed. -/
abbrev NovaObjects := List (String × NovaObject)

/-- Structure `NovaState` from NovaContext. -/
structure NovaState where
  config : NovaConfig
  user : Option NovaUser
  objects : NovaObjects
  isLoading : Bool
  error : Option String
deriving DecidableEq

/-- Type `NovaAction` from NovaContext. UPDATE_OBJECT_PROPS carries
`props: any`, which at the dispatch sites is `data?.variant_config` and may
be undefined, hence `Option Props`. -/
inductive NovaAction where
  | setConfig (payload : PartialConfig)
  | setUser (payload : NovaUser)
  | setDefaults (payload : List (String × Props))
  | updateObjectProps (name : String) (props : Option Props)
  | setBulkObjects (payload : List (String × Props))
  | setLoading (payload : Bool)
  | setError (payload : Option String)
deriving DecidableEq

/-- SET_DEFAULTS body: iterate the payload over a freshly created empty
map, updating an entry only when `newObjects[objectName]` is truthy
(i.e. the key already exists in the accumulator). -/
def applyDefaults (acc : NovaObjects) : List (String × Props) → NovaObjects
  | [] => acc
  | (objectName, objectProps) :: rest =>
      match lookupKey acc objectName with
      | some existing =>
          applyDefaults
            (setKey acc objectName
              { existing with name := some objectName, defaultProps := some objectProps })
            rest
      | none => applyDefaults acc rest

/-- One SET_BULK_OBJECTS assignment:
`{ ...updatedObjects[objectName], props, isLoaded: true, lastFetched: new Date() }`. -/
def bulkEntry (prev : Option NovaObject) (objectProps : Props) (now : Nat) : NovaObject :=
  { name := prev.bind (fun o => o.name)
    defaultProps := prev.bind (fun o => o.defaultProps)
    props := some objectProps
    isLoaded := true
    lastFetched := some now }

/-- SET_BULK_OBJECTS body: copy the map, then assign each payload entry. -/
def applyBulk (now : Nat) (acc : NovaObjects) : List (String × Props) → NovaObjects
  | [] => acc
  | (objectName, objectProps) :: rest =>
      applyBulk now
        (setKey acc objectName (bulkEntry (lookupKey acc objectName) objectProps now)) rest

/-- Function `novaReducer` from NovaContext (both source variants have identical
bodies). `now` is the clock reading `new Date()` takes at this dispatch. -/
def novaReducer (now : Nat) (state : NovaState) (action : NovaAction) : NovaState :=
  match action with
  | .setConfig payload => { state with config := mergeConfig state.config payload }
  | .setUser payload => { state with user := some payload }
  | .setDefaults payload => { state with objects := applyDefaults [] payload }
  | .updateObjectProps name props =>
      { state with
          objects :=
            setKey state.objects name
              { name := (lookupKey state.objects name).bind (fun o => o.name)
                defaultProps := (lookupKey state.objects name).bind (fun o => o.defaultProps)
                props := props
                isLoaded := true
                lastFetched := some now } }
  | .setBulkObjects payload => { state with objects := applyBulk now state.objects payload }
  | .setLoading payload => { state with isLoading := payload }
  | .setError payload => { state with error := payload }

/-- Dispatching a sequence of actions, all stamped at the same clock
reading, to the reducer. -/
def applyActions (now : Nat) (s : NovaState) (acts : List NovaAction) : NovaState :=
  acts.foldl (novaReducer now) s

/-- The SET_DEFAULTS loop never inserts: starting from the fresh empty
map, the guard `newObjects[objectName]` is always falsy, so the result is
empty whatever the payload. -/
theorem applyDefaults_nil_empty (payload : List (String × Props)) :
    applyDefaults [] payload = [] := by
  induction payload with
  | nil => rfl
  | cons hd tl ih =>
      obtain ⟨k, v⟩ := hd
      simpa [applyDefaults, lookupKey] using ih

/-- A backend feature-variant record; only `variant_config` is ever read
by the SDK (the identifier/metadata fields are discarded), and it may be
absent from the JSON body. -/
structure FeatureVariantResponse where
  feature_name : String
  variant_config : Option Props
deriving DecidableEq

/-- A network request issued by the loader facade, with the fields the
source serialises into the POST body. -/
inductive Request where
  | getVariant (apiEndpoint orgId appId userId : String)
      (profile : Props) (featureName : String)
  | getVariantsBatch (apiEndpoint orgId appId userId : String)
      (profile : Props) (featureNames : List String)
  | getAllVariants (apiEndpoint orgId appId userId : String) (profile : Props)
deriving DecidableEq

/-- The URL each request is POSTed to. -/
def Request.url : Request → String
  | .getVariant e _ _ _ _ _ => e ++ "/api/v1/user-experience/get-variant/"
  | .getVariantsBatch e _ _ _ _ _ => e ++ "/api/v1/user-experience/get-variants-batch/"
  | .getAllVariants e _ _ _ _ => e ++ "/api/v1/user-experience/get-all-variants/"

/-- Is this a single-variant request for feature `n`? -/
def Request.isVariantFor (r : Request) (n : String) : Bool :=
  match r with
  | .getVariant _ _ _ _ _ featureName => featureName = n
  | _ => false

/-- The feature names of a batch request, if it is one. -/
def Request.batchNames : Request → Option (List String)
  | .getVariantsBatch _ _ _ _ _ featureNames => some featureNames
  | _ => none

instance {ε α : Type} [DecidableEq ε] [DecidableEq α] : DecidableEq (Except ε α) :=
  fun x y =>
    match x, y with
    | .ok a, .ok b => decidable_of_iff (a = b) (by simp)
    | .ok _, .error _ => isFalse (fun h => nomatch h)
    | .error _, .ok _ => isFalse (fun h => nomatch h)
    | .error a, .error b => decidable_of_iff (a = b) (by simp)

/-- Outcome of simulating one facade operation: requests issued (in
order), actions dispatched (in order), and the value returned or the
error thrown. -/
structure LoadResult (α : Type) where
  fetches : List Request
  dispatched : List NovaAction
  result : Except String α
deriving DecidableEq

/-- Function `isObjectLoaded`: `state.objects[objectName]?.isLoaded || false`. -/
def isObjectLoaded (state : NovaState) (objectName : String) : Bool :=
  match lookupKey state.objects objectName with
  | some o => o.isLoaded
  | none => false

/-- The message of the loader precondition error. -/
def userPreconditionMsg : String := "User must be set before loading objects"

/-- Function `loadObject` (first source variant, which returns the response).
Here `net` is the reply of the network to the single fetch the operation may issue.
Returns `none` on the skip path, `some data` after a successful fetch. -/
def loadObject (state : NovaState) (objectName : String) (forceReload : Bool)
    (net : Except String FeatureVariantResponse) :
    LoadResult (Option FeatureVariantResponse) :=
  match state.user with
  | none => ⟨[], [], .error userPreconditionMsg⟩
  | some user =>
      if !forceReload && isObjectLoaded state objectName then
        ⟨[], [], .ok none⟩
      else
        let req := Request.getVariant state.config.apiEndpoint
          state.config.organisationId state.config.appId
          user.userId (user.userProfile.getD []) objectName
        match net with
        | .ok data =>
            ⟨[req],
             [.setLoading true, .setError none,
              .updateObjectProps objectName data.variant_config,
              .setLoading false],
             .ok (some data)⟩
        | .error e =>
            ⟨[req],
             [.setLoading true, .setError none,
              .setError (some ("Failed to load object \"" ++ objectName ++ "\": " ++ e)),
              .setLoading false],
             .error e⟩

/-- The forEach loop the batch loaders run over the response entries:
`if (featureName) objects[featureName] = featureData?.variant_config || {}`
(an empty-string key is falsy and skipped; a missing or null
`variant_config` becomes the empty bag). -/
def buildVariantMapAux (acc : List (String × Props)) :
    List (String × FeatureVariantResponse) → List (String × Props)
  | [] => acc
  | (featureName, featureData) :: rest =>
      buildVariantMapAux
        (if featureName = "" then acc
         else setKey acc featureName (featureData.variant_config.getD [])) rest

/-- The map the batch loaders build from a response body. -/
def buildVariantMap (data : List (String × FeatureVariantResponse)) :
    List (String × Props) :=
  buildVariantMapAux [] data

/-- Function `loadObjects` (first source variant, which returns the built map).
Here `net` is the reply of the network to the batch fetch. The skip path returns
the empty map. -/
def loadObjects (state : NovaState) (objectNames : List String) (forceReload : Bool)
    (net : Except String (List (String × FeatureVariantResponse))) :
    LoadResult (List (String × Props)) :=
  match state.user with
  | none => ⟨[], [], .error userPreconditionMsg⟩
  | some user =>
      let objectsToLoad :=
        if forceReload then objectNames
        else objectNames.filter (fun n => !isObjectLoaded state n)
      if objectsToLoad.length = 0 then
        ⟨[], [], .ok []⟩
      else
        let req := Request.getVariantsBatch state.config.apiEndpoint
          state.config.organisationId state.config.appId
          user.userId (user.userProfile.getD []) objectsToLoad
        match net with
        | .ok data =>
            ⟨[req],
             [.setLoading true, .setError none,
              .setBulkObjects (buildVariantMap data),
              .setLoading false],
             .ok (buildVariantMap data)⟩
        | .error e =>
            ⟨[req],
             [.setLoading true, .setError none,
              .setError (some ("Failed to load objects: " ++ e)),
              .setLoading false],
             .error e⟩

/-- Function `loadAllObjects` (first source variant). Note the source checks the
skip-if-cache-nonempty condition BEFORE the user precondition. -/
def loadAllObjects (state : NovaState) (forceReload : Bool)
    (net : Except String (List (String × FeatureVariantResponse))) :
    LoadResult (List (String × Props)) :=
  if !forceReload && state.objects.length > 0 then
    ⟨[], [], .ok []⟩
  else
    match state.user with
    | none => ⟨[], [], .error userPreconditionMsg⟩
    | some user =>
        let req := Request.getAllVariants state.config.apiEndpoint
          state.config.organisationId state.config.appId
          user.userId (user.userProfile.getD [])
        match net with
        | .ok data =>
            ⟨[req],
             [.setLoading true, .setError none,
              .setBulkObjects (buildVariantMap data),
              .setLoading false],
             .ok (buildVariantMap data)⟩
        | .error e =>
            ⟨[req],
             [.setLoading true, .setError none,
              .setError (some ("Failed to load objects: " ++ e)),
              .setLoading false],
             .error e⟩

/-- Function `readNovaObject`: on a miss, logs an error (second component `true`)
and returns null; on a hit, returns the raw `props` field (no default
fallback). -/
def readNovaObject (state : NovaState) (objectName : String) :
    Option Props × Bool :=
  match lookupKey state.objects objectName with
  | none => (none, true)
  | some o => (o.props, false)

/-- Function `getNovaObject` (second source variant): on a miss, logs an error and
returns null; on a hit, returns `props || defaultProps` (JS truthiness:
any non-null object, including the empty one, wins). -/
def getNovaObject (state : NovaState) (objectName : String) :
    Option Props × Bool :=
  match lookupKey state.objects objectName with
  | none => (none, true)
  | some o =>
      (match o.props with
       | some p => some p
       | none => o.defaultProps, false)

/-- What `getNovaObject` (first source variant) hands back to its caller. -/
inductive GetValue where
  | fromCache (p : Option Props)
  | notFound
  | loaded (r : Option FeatureVariantResponse)
deriving DecidableEq

/-- Function `getNovaObject` (first source variant): on a cache hit returns
`props || defaultProps` without effects; on a miss with `readOnly` logs
and returns null; on a miss otherwise delegates to `loadObject` and
returns its result. -/
def getNovaObjectAsync (state : NovaState) (objectName : String) (readOnly : Bool)
    (net : Except String FeatureVariantResponse) : LoadResult GetValue :=
  match lookupKey state.objects objectName with
  | some o =>
      ⟨[], [],
       .ok (.fromCache (match o.props with
         | some p => some p
         | none => o.defaultProps))⟩
  | none =>
      if readOnly then ⟨[], [], .ok .notFound⟩
      else
        let r := loadObject state objectName false net
        ⟨r.fetches, r.dispatched, r.result.map GetValue.loaded⟩

/-! ## Transport helper (`callApi`) -/

/-- The response object the fetch primitive hands back; `ok` is derived
from the status (2xx), `body` is the already-parsed JSON value. -/
structure FetchResponse (α : Type) where
  status : Nat
  statusText : String
  body : α
deriving DecidableEq

/-- Check `response.ok`: status in the 2xx range. -/
def responseOk (status : Nat) : Bool := 200 ≤ status && status ≤ 299

/-- The caller-supplied options, of which `callApi` reads `headers`
(keys are JS object keys, hence case-sensitive at the object level). -/
structure CallOptions where
  headers : List (String × String) := []
deriving DecidableEq

/-- Merge `{ "Content-Type": "application/json", ...options.headers }`:
the base entry first, then each caller header assigned over it. -/
def mergeHeaders (base : List (String × String)) :
    List (String × String) → List (String × String)
  | [] => base
  | (k, v) :: rest => mergeHeaders (setKey base k v) rest

/-- What one `callApi` invocation does: the headers it sends, and the
body it returns or the error it throws. -/
structure CallApiResult (α : Type) where
  sentHeaders : List (String × String)
  result : Except String α
deriving DecidableEq

/-- Function `callApi` from the api service module. `response` is the reply of the
single fetch it performs. On success the parsed body is returned as-is
(a type assertion, no validation). -/
def callApi {α : Type} (url : String) (options : CallOptions)
    (response : FetchResponse α) : CallApiResult α :=
  let headers := mergeHeaders [("Content-Type", "application/json")] options.headers
  if responseOk response.status then
    ⟨headers, .ok response.body⟩
  else
    ⟨headers,
     .error ("API error: " ++ toString response.status ++ " - " ++ response.statusText)⟩

/-! ## Registry sync CLI (`sync-nova-registry.cjs`) -/

/-- The resolved CLI configuration (after env / .novarc / package.json
layering); a `none` field is a missing credential. -/
structure CliConfig where
  orgId : Option String
  appId : Option String
  apiKey : Option String
  apiEndpoint : String
deriving DecidableEq

/-- The state of the local nova-objects.json manifest as the CLI finds
it: absent, unparseable, or parsed with each of the two required
sections present (as a map) or not. -/
inductive ManifestFile where
  | absent
  | badJson (parseError : String)
  | parsed (objects : Option (List (String × Props)))
      (experiences : Option (List (String × Props)))
deriving DecidableEq

/-- The CLI environment: `packageJsonValid` abstracts the project check
(package.json exists, parses, and lists the SDK as a dependency);
`syncOk` is whether the backend accepts the sync POST. -/
structure CliEnv where
  packageJsonValid : Bool
  config : CliConfig
  manifest : ManifestFile
  syncOk : Bool
deriving DecidableEq

/-- The env-variable names reported for missing credentials, in the
order the source pushes them. -/
def missingVars (c : CliConfig) : List String :=
  (if c.orgId.isNone then ["NOVA_ORG_ID"] else []) ++
  (if c.appId.isNone then ["NOVA_APP_ID"] else []) ++
  (if c.apiKey.isNone then ["NOVA_API_KEY"] else [])

/-- Method `NovaSync.validateProject`: project check, then required-config
check. Returns the thrown error message, if any. -/
def validateProject (env : CliEnv) : Option String :=
  if !env.packageJsonValid then
    some "nova-react-sdk project validation failed"
  else if env.config.orgId.isNone || env.config.appId.isNone
      || env.config.apiKey.isNone then
    some ("Missing required configuration: "
      ++ String.intercalate ", " (missingVars env.config))
  else
    none

/-- Method `NovaSync.loadObjectsFromJson`: existence, JSON parse, then the
"objects" and "experiences" section checks, in source order. -/
def loadObjectsFromJson (m : ManifestFile) :
    Except String (List (String × Props) × List (String × Props)) :=
  match m with
  | .absent =>
      .error "nova-objects.json not found. Create this file with your object definitions."
  | .badJson e =>
      .error ("Invalid JSON in nova-objects.json: " ++ e)
  | .parsed objects experiences =>
      match objects with
      | none =>
          .error "nova-objects.json must have an \"objects\" property with object definitions"
      | some objs =>
          match experiences with
          | none =>
              .error "nova-objects.json must have an \"experiences\" property with experience definitions"
          | some exps => .ok (objs, exps)

/-- Observable outcome of one `NovaSync.run`: process exit code, whether
the manifest file was read, whether nova-registry.json was written, how
many sync POSTs went out, and the fatal error message, if any. -/
structure CliOutcome where
  exitCode : Nat
  manifestRead : Bool
  wroteRegistry : Bool
  syncCalls : Nat
  errorMsg : Option String
deriving DecidableEq

/-- Method `NovaSync.run`: validateProject, loadObjectsFromJson, the empty-map
early return, saveRegistryFile, sync; any thrown error is printed and
the process exits 1. -/
def runCli (env : CliEnv) : CliOutcome :=
  match validateProject env with
  | some e => ⟨1, false, false, 0, some e⟩
  | none =>
      match loadObjectsFromJson env.manifest with
      | .error e => ⟨1, true, false, 0, some e⟩
      | .ok (objs, _) =>
          if objs.length = 0 then ⟨0, true, false, 0, none⟩
          else if env.syncOk then ⟨0, true, true, 1, none⟩
          else ⟨1, true, true, 1, some "Sync failed: backend rejected the payload"⟩

/-! ## Association-list lemmas -/

theorem lookupKey_setKey_self {α : Type} (m : List (String × α)) (k : String) (v : α) :
    lookupKey (setKey m k v) k = some v := by
  induction m with
  | nil => simp [setKey, lookupKey]
  | cons hd tl ih =>
      obtain ⟨k1, v1⟩ := hd
      by_cases hk : k1 = k
      · simp [setKey, hk, lookupKey]
      · simp [setKey, hk, lookupKey, ih]

theorem lookupKey_setKey_ne {α : Type} (m : List (String × α)) (k k1 : String) (v : α)
    (h : k1 ≠ k) : lookupKey (setKey m k v) k1 = lookupKey m k1 := by
  have hne : ¬(k = k1) := fun he => h he.symm
  induction m with
  | nil => simp [setKey, lookupKey, hne]
  | cons hd tl ih =>
      obtain ⟨k2, v2⟩ := hd
      by_cases hk : k2 = k
      · subst hk
        simp [setKey, lookupKey, hne]
      · simp [setKey, hk, lookupKey, ih]

theorem mem_setKey {α : Type} (m : List (String × α)) (k : String) (v : α)
    (q : String × α) (hq : q ∈ setKey m k v) : q = (k, v) ∨ q ∈ m := by
  induction m with
  | nil => simpa [setKey] using hq
  | cons hd tl ih =>
      obtain ⟨k1, v1⟩ := hd
      by_cases hk : k1 = k
      · simp [setKey, hk] at hq
        rcases hq with h1 | h1
        · exact Or.inl h1
        · exact Or.inr (List.mem_cons_of_mem _ h1)
      · simp [setKey, hk] at hq
        rcases hq with h1 | h1
        · exact Or.inr (by simp [h1])
        · rcases ih h1 with h2 | h2
          · exact Or.inl h2
          · exact Or.inr (List.mem_cons_of_mem _ h2)

/-- Assigning keys that all differ from `n` leaves the lookup of `n`
unchanged through the SET_BULK_OBJECTS loop. -/
theorem applyBulk_lookupKey_notMem (now : Nat) (pl : List (String × Props)) :
    ∀ acc : NovaObjects, (∀ p ∈ pl, p.1 ≠ n) →
      lookupKey (applyBulk now acc pl) n = lookupKey acc n := by
  induction pl with
  | nil => intro acc _; rfl
  | cons hd tl ih =>
      intro acc hne
      obtain ⟨k, v⟩ := hd
      have hk : k ≠ n := hne (k, v) (List.mem_cons_self _ _)
      rw [applyBulk, ih _ (fun p hp => hne p (List.mem_cons_of_mem _ hp)),
        lookupKey_setKey_ne _ _ _ _ (fun he => hk he.symm)]

/-- Every entry the batch-response loop produces has the key of some
response entry. -/
theorem mem_buildVariantMapAux (data : List (String × FeatureVariantResponse)) :
    ∀ acc q, q ∈ buildVariantMapAux acc data →
      q ∈ acc ∨ ∃ p ∈ data, p.1 = q.1 := by
  induction data with
  | nil => intro acc q hq; exact Or.inl hq
  | cons hd tl ih =>
      intro acc q hq
      obtain ⟨fn, fd⟩ := hd
      rw [buildVariantMapAux] at hq
      by_cases hfn : fn = ""
      · simp only [hfn, if_pos rfl] at hq
        rcases ih _ _ hq with h1 | ⟨p, hp, hpe⟩
        · exact Or.inl h1
        · exact Or.inr ⟨p, List.mem_cons_of_mem _ hp, hpe⟩
      · simp only [if_neg hfn] at hq
        rcases ih _ _ hq with h1 | ⟨p, hp, hpe⟩
        · rcases mem_setKey _ _ _ _ h1 with h2 | h2
          · exact Or.inr ⟨(fn, fd), List.mem_cons_self _ _, by simp [h2]⟩
          · exact Or.inl h2
        · exact Or.inr ⟨p, List.mem_cons_of_mem _ hp, hpe⟩

/-- Inserting a fresh name through the SET_BULK_OBJECTS loop: if `n` is
absent from the accumulator, the payload keys are unique, and the payload
carries `(n, q)`, the resulting entry is the defaults-less one. -/
theorem applyBulk_lookupKey_insert (now : Nat) (n : String) (q : Props)
    (pl : List (String × Props)) :
    ∀ acc : NovaObjects, lookupKey acc n = none →
      (pl.map Prod.fst).Nodup → (n, q) ∈ pl →
      lookupKey (applyBulk now acc pl) n
        = some ⟨none, none, some q, true, some now⟩ := by
  induction pl with
  | nil => intro acc _ _ hmem; cases hmem
  | cons hd tl ih =>
      intro acc hacc hnd hmem
      obtain ⟨k, v⟩ := hd
      simp only [List.map_cons, List.nodup_cons] at hnd
      by_cases hk : k = n
      · subst hk
        have hv : v = q := by
          rcases List.mem_cons.mp hmem with h1 | h1
          · exact ((Prod.ext_iff.mp h1).2).symm
          · exact absurd (List.mem_map.mpr ⟨(k, q), h1, rfl⟩) hnd.1
        subst hv
        have hrest : ∀ p ∈ tl, p.1 ≠ k := by
          intro p hp he
          exact hnd.1 (by rw [← he]; exact List.mem_map.mpr ⟨p, hp, rfl⟩)
        rw [applyBulk, applyBulk_lookupKey_notMem now tl _ hrest,
          lookupKey_setKey_self, hacc]
        rfl
      · have hmem1 : (n, q) ∈ tl := by
          rcases List.mem_cons.mp hmem with h1 | h1
          · exact absurd ((Prod.ext_iff.mp h1).1).symm hk
          · exact h1
        rw [applyBulk]
        exact ih _ (by rw [lookupKey_setKey_ne _ _ _ _ (fun he => hk he.symm)]; exact hacc)
          hnd.2 hmem1

/-- Merging caller headers that do not mention key `k` leaves the lookup
of `k` at its base value. -/
theorem lookupKey_mergeHeaders_notMem (extra : List (String × String)) :
    ∀ base, lookupKey extra k = none →
      lookupKey (mergeHeaders base extra) k = lookupKey base k := by
  induction extra with
  | nil => intro base _; rfl
  | cons hd tl ih =>
      intro base hn
      obtain ⟨k1, v1⟩ := hd
      rw [lookupKey] at hn
      by_cases hk : k1 = k
      · simp [hk] at hn
      · rw [if_neg hk] at hn
        rw [mergeHeaders, ih _ hn, lookupKey_setKey_ne _ _ _ _ (fun he => hk he.symm)]

/-! ## Determinism of the reducer up to the clock -/

/-- Erase the timestamp of one cache entry. -/
def stripEntry (o : NovaObject) : NovaObject := { o with lastFetched := none }

/-- Erase every timestamp in a cache. -/
def mapStrip (m : NovaObjects) : NovaObjects :=
  m.map (fun p => (p.1, stripEntry p.2))

/-- Erase every timestamp in a state. -/
def stripTimes (s : NovaState) : NovaState := { s with objects := mapStrip s.objects }

/-- Does this action stamp `new Date()` into the state? -/
def NovaAction.stampsTime : NovaAction → Bool
  | .updateObjectProps _ _ => true
  | .setBulkObjects _ => true
  | _ => false

theorem lookupKey_mapStrip (m : NovaObjects) (k : String) :
    lookupKey (mapStrip m) k = (lookupKey m k).map stripEntry := by
  induction m with
  | nil => rfl
  | cons hd tl ih =>
      obtain ⟨k1, v1⟩ := hd
      by_cases hk : k1 = k
      · simp [mapStrip, lookupKey, hk]
      · simpa [mapStrip, lookupKey, hk] using ih

theorem mapStrip_setKey (m : NovaObjects) (k : String) (v : NovaObject) :
    mapStrip (setKey m k v) = setKey (mapStrip m) k (stripEntry v) := by
  induction m with
  | nil => rfl
  | cons hd tl ih =>
      obtain ⟨k1, v1⟩ := hd
      by_cases hk : k1 = k
      · simp [mapStrip, setKey, hk]
      · simpa [mapStrip, setKey, hk] using ih

/-- Names survive stripping. -/
theorem bind_name_strip (o : Option NovaObject) :
    (o.map stripEntry).bind (fun x => x.name) = o.bind (fun x => x.name) := by
  cases o <;> rfl

/-- Default props survive stripping. -/
theorem bind_defaultProps_strip (o : Option NovaObject) :
    (o.map stripEntry).bind (fun x => x.defaultProps) = o.bind (fun x => x.defaultProps) := by
  cases o <;> rfl

/-- The SET_BULK_OBJECTS loop run at two different clock readings, over
two accumulators equal up to timestamps, yields results equal up to
timestamps. -/
theorem applyBulk_strip (n1 n2 : Nat) (pl : List (String × Props)) :
    ∀ m1 m2 : NovaObjects, mapStrip m1 = mapStrip m2 →
      mapStrip (applyBulk n1 m1 pl) = mapStrip (applyBulk n2 m2 pl) := by
  induction pl with
  | nil => intro m1 m2 hm; exact hm
  | cons hd tl ih =>
      intro m1 m2 hm
      obtain ⟨k, v⟩ := hd
      rw [applyBulk, applyBulk]
      apply ih
      rw [mapStrip_setKey, mapStrip_setKey]
      have hlk : (lookupKey m1 k).map stripEntry = (lookupKey m2 k).map stripEntry := by
        rw [← lookupKey_mapStrip, ← lookupKey_mapStrip, hm]
      have hentry : stripEntry (bulkEntry (lookupKey m1 k) v n1)
          = stripEntry (bulkEntry (lookupKey m2 k) v n2) := by
        simp only [stripEntry, bulkEntry]
        rw [← bind_name_strip (lookupKey m1 k), ← bind_name_strip (lookupKey m2 k),
          ← bind_defaultProps_strip (lookupKey m1 k), ← bind_defaultProps_strip (lookupKey m2 k),
          hlk]
      rw [hm, hentry]

/-! ## Concrete fixtures for witnesses and counterexamples -/

/-- A sample configuration. -/
def cfg0 : NovaConfig := ⟨"org", "app", "https://api.example"⟩

/-- A sample user. -/
def user0 : NovaUser := ⟨"u1", none, none⟩

/-- A cache entry that has been loaded from the backend. -/
def entryLoaded : NovaObject :=
  ⟨some "a", some [("color", "red")], some [("color", "blue")], true, some 5⟩

/-- A cache entry initialised from defaults, never loaded. -/
def entryUnloaded : NovaObject :=
  ⟨some "x", some [("color", "red")], none, false, none⟩

/-- The initial provider state: no user, empty cache. -/
def s0 : NovaState := ⟨cfg0, none, [], false, none⟩

/-- A state with a user set and the object "a" loaded. -/
def sUser : NovaState := ⟨cfg0, some user0, [("a", entryLoaded)], false, none⟩

/-- A state holding the unloaded default entry "x", no user. -/
def sDefaults : NovaState := ⟨cfg0, none, [("x", entryUnloaded)], false, none⟩

/-- A state with no user but a non-empty cache. -/
def sNoUser : NovaState := ⟨cfg0, none, [("a", entryLoaded)], false, none⟩

/-- A state with a user, the object "x" loaded, and the shared loading
flag currently raised. -/
def sBusy : NovaState :=
  ⟨cfg0, some user0, [("x", ⟨some "x", some [("color", "red")], some [("c", "d")], true, some 3⟩)],
   true, none⟩

/-! ## Claims -/

/-- C1: the claim says SET_DEFAULTS replaces the object map with one
entry per manifest key. The code instead iterates the payload over a
freshly created empty map and only updates keys already present in it,
so the resulting object map is always empty — the stated population of
the map never happens. This theorem evaluates the reducer: for every
state, clock and payload, SET_DEFAULTS leaves an empty object map. -/
theorem C1_setDefaults_always_empties_cache (now : Nat) (s : NovaState)
    (payload : List (String × Props)) :
    (novaReducer now s (.setDefaults payload)).objects = [] := by
  simp [novaReducer, applyDefaults_nil_empty]

/-- C2 counterexample: the reducer reads the clock (`new Date()`), so
applying UPDATE_OBJECT_PROPS to the same state at two different instants
yields output states that differ (in `lastFetched`), refuting the claim
that the two outputs are always value-equal. -/
theorem C2_counterexample :
    novaReducer 0 s0 (.updateObjectProps "x" (some []))
      ≠ novaReducer 1 s0 (.updateObjectProps "x" (some [])) := by
  decide

/-- C2 (amended): the reducer is a pure function of state, action and
the clock reading taken at dispatch: for a fixed clock value the output
is unique, actions that do not stamp a timestamp give identical outputs
at any two clock readings, and for the stamping actions
(UPDATE_OBJECT_PROPS, SET_BULK_OBJECTS) the outputs at two clock
readings agree everywhere except the `lastFetched` timestamps. -/
theorem C2_reducer_deterministic_up_to_clock (s : NovaState) (a : NovaAction)
    (now1 now2 : Nat) :
    (a.stampsTime = false → novaReducer now1 s a = novaReducer now2 s a)
  ∧ stripTimes (novaReducer now1 s a) = stripTimes (novaReducer now2 s a) := by
  cases a with
  | setConfig payload => exact ⟨fun _ => rfl, rfl⟩
  | setUser payload => exact ⟨fun _ => rfl, rfl⟩
  | setDefaults payload => exact ⟨fun _ => rfl, rfl⟩
  | setLoading payload => exact ⟨fun _ => rfl, rfl⟩
  | setError payload => exact ⟨fun _ => rfl, rfl⟩
  | updateObjectProps name props =>
      constructor
      · intro hfalse; simp [NovaAction.stampsTime] at hfalse
      · simp only [novaReducer, stripTimes]
        rw [mapStrip_setKey, mapStrip_setKey]
        simp only [stripEntry]
  | setBulkObjects payload =>
      constructor
      · intro hfalse; simp [NovaAction.stampsTime] at hfalse
      · have hobj : mapStrip (applyBulk now1 s.objects payload)
            = mapStrip (applyBulk now2 s.objects payload) :=
          applyBulk_strip now1 now2 payload s.objects s.objects rfl
        simp only [novaReducer, stripTimes, hobj]

/-- C2 witness: the amended theorem applied at a concrete state, a
non-stamping action and a stamping one, at clock readings 0 and 1. -/
theorem C2_witness :
    novaReducer 0 s0 (.setLoading true) = novaReducer 1 s0 (.setLoading true)
  ∧ stripTimes (novaReducer 0 s0 (.setBulkObjects [("x", [])]))
      = stripTimes (novaReducer 1 s0 (.setBulkObjects [("x", [])])) :=
  ⟨(C2_reducer_deterministic_up_to_clock s0 (.setLoading true) 0 1).1 rfl,
   (C2_reducer_deterministic_up_to_clock s0 (.setBulkObjects [("x", [])]) 0 1).2⟩

/-- C3 counterexample: the cache holds an unloaded entry "x" whose
default properties are `{"color": "red"}`, yet `readNovaObject` returns
null (the raw `props` field), not the defaults the claim promises. -/
theorem C3_counterexample :
    lookupKey sDefaults.objects "x"
      = some ⟨some "x", some [("color", "red")], none, false, none⟩
    ∧ readNovaObject sDefaults "x" = (none, false) := by
  exact ⟨rfl, rfl⟩

/-- C3 (amended): for a name absent from the cache both accessors log an
error and return null without throwing; for a present entry,
`getNovaObject` returns the fetched properties when they are non-null
and the default properties otherwise, while `readNovaObject` returns the
raw fetched properties with no default fallback (null before any load). -/
theorem C3_read_get_contract (s : NovaState) (name : String) :
    (lookupKey s.objects name = none →
        readNovaObject s name = (none, true) ∧ getNovaObject s name = (none, true))
  ∧ (∀ o, lookupKey s.objects name = some o →
        readNovaObject s name = (o.props, false)
      ∧ (∀ p, o.props = some p → getNovaObject s name = (some p, false))
      ∧ (o.props = none → getNovaObject s name = (o.defaultProps, false))) := by
  constructor
  · intro h
    exact ⟨by simp [readNovaObject, h], by simp [getNovaObject, h]⟩
  · intro o h
    exact ⟨by simp [readNovaObject, h],
      fun p hp => by simp [getNovaObject, h, hp],
      fun hp => by simp [getNovaObject, h, hp]⟩

/-- C3 witness: the amended contract evaluated on the defaults-only
state: an unknown name yields null with a logged error, the unloaded
entry yields null from `readNovaObject` and its defaults from
`getNovaObject`. -/
theorem C3_witness :
    readNovaObject sDefaults "nope" = (none, true)
  ∧ readNovaObject sDefaults "x" = (none, false)
  ∧ getNovaObject sDefaults "x" = (some [("color", "red")], false) :=
  ⟨((C3_read_get_contract sDefaults "nope").1 (by decide)).1,
   ((C3_read_get_contract sDefaults "x").2 entryUnloaded (by decide)).1,
   ((C3_read_get_contract sDefaults "x").2 entryUnloaded (by decide)).2.2 (by decide)⟩

/-- C4 counterexample: with no user set but a non-empty cache,
`loadAllObjects` without forcing hits its skip check (which the source
places BEFORE the user check) and returns successfully with no
precondition error — refuting the claim that every load operation fails
with the precondition error regardless of cache contents. -/
theorem C4_counterexample :
    sNoUser.user = none
    ∧ loadAllObjects sNoUser false (.error "unused") = ⟨[], [], .ok []⟩ := by
  exact ⟨rfl, rfl⟩

/-- C4 (amended): with no user set, `loadObject` and `loadObjects`
always fail with the precondition error and issue no network request;
`loadAllObjects` issues no network request either and fails with the
same error, except that without forcing and with a non-empty cache its
skip check fires first and it returns the empty map without error. -/
theorem C4_no_user_loaders (s : NovaState) (name : String) (names : List String)
    (force : Bool) (net1 : Except String FeatureVariantResponse)
    (net2 net3 : Except String (List (String × FeatureVariantResponse)))
    (h : s.user = none) :
    loadObject s name force net1 = ⟨[], [], .error userPreconditionMsg⟩
  ∧ loadObjects s names force net2 = ⟨[], [], .error userPreconditionMsg⟩
  ∧ (loadAllObjects s force net3).fetches = []
  ∧ (loadAllObjects s force net3 = ⟨[], [], .error userPreconditionMsg⟩
      ∨ (force = false ∧ s.objects ≠ []
          ∧ loadAllObjects s force net3 = ⟨[], [], .ok []⟩)) := by
  refine ⟨by simp [loadObject, h], by simp [loadObjects, h], ?_, ?_⟩
  · cases force with
    | true => simp [loadAllObjects, h]
    | false =>
        by_cases hnil : s.objects = []
        · simp [loadAllObjects, h, hnil]
        · simp [loadAllObjects, h, List.length_pos.mpr hnil]
  · cases force with
    | true => exact Or.inl (by simp [loadAllObjects, h])
    | false =>
        by_cases hnil : s.objects = []
        · exact Or.inl (by simp [loadAllObjects, h, hnil])
        · exact Or.inr ⟨rfl, hnil, by simp [loadAllObjects, List.length_pos.mpr hnil]⟩

/-- C4 witness: the amended theorem at the initial state (no user, empty
cache): both loaders fail with the precondition error and no request
goes out. -/
theorem C4_witness :
    loadObject s0 "x" false (.error "e") = ⟨[], [], .error userPreconditionMsg⟩
  ∧ (loadAllObjects s0 false (.error "e")).fetches = [] :=
  ⟨(C4_no_user_loaders s0 "x" [] false (.error "e") (.error "e") (.error "e") rfl).1,
   (C4_no_user_loaders s0 "x" [] false (.error "e") (.error "e") (.error "e") rfl).2.2.1⟩

/-- C5: with a user set, `loadObject` on a not-yet-loaded name issues
exactly one fetch, a single-variant request for that name at the
get-variant endpoint; on a loaded name without `forceReload` it issues
no fetch, dispatches nothing and leaves the state untouched; with
`forceReload` it issues the fetch again. -/
theorem C5_loadObject_fetch_discipline (s : NovaState) (name : String)
    (u : NovaUser) (net : Except String FeatureVariantResponse) (now : Nat)
    (h : s.user = some u) :
    (isObjectLoaded s name = false →
        (loadObject s name false net).fetches.length = 1
      ∧ ∀ r ∈ (loadObject s name false net).fetches,
          r.isVariantFor name = true
        ∧ r.url = s.config.apiEndpoint ++ "/api/v1/user-experience/get-variant/")
  ∧ (isObjectLoaded s name = true →
        loadObject s name false net = ⟨[], [], .ok none⟩
      ∧ applyActions now s (loadObject s name false net).dispatched = s)
  ∧ ((loadObject s name true net).fetches.length = 1
      ∧ ∀ r ∈ (loadObject s name true net).fetches, r.isVariantFor name = true) := by
  refine ⟨?_, ?_, ?_⟩
  · intro hl
    cases net with
    | ok d => simp [loadObject, h, hl, Request.isVariantFor, Request.url]
    | error e => simp [loadObject, h, hl, Request.isVariantFor, Request.url]
  · intro hl
    constructor
    · simp [loadObject, h, hl]
    · simp [loadObject, h, hl, applyActions]
  · cases net with
    | ok d => simp [loadObject, h, Request.isVariantFor]
    | error e => simp [loadObject, h, Request.isVariantFor]

/-- C5 witness: at a state whose cache holds only the loaded "a", the
loaded name is skipped with no fetch and the unloaded "b" triggers
exactly one fetch. -/
theorem C5_witness :
    loadObject sUser "a" false (.error "boom") = ⟨[], [], .ok none⟩
  ∧ (loadObject sUser "b" false (.error "boom")).fetches.length = 1 :=
  ⟨((C5_loadObject_fetch_discipline sUser "a" user0 (.error "boom") 0 rfl).2.1
      (by decide)).1,
   ((C5_loadObject_fetch_discipline sUser "b" user0 (.error "boom") 0 rfl).1
      (by decide)).1⟩

/-- C6: with a user set, `loadObjects` without forcing requests exactly
the subset of the given names not yet loaded, in one batched request; if
that subset is empty it issues no fetch and dispatches nothing; and when
the response keys stay within the requested subset, the cache entry of
every already-loaded (hence filtered-out) name is unchanged after the
dispatched bulk update is applied. -/
theorem C6_loadObjects_filter_and_frame (s : NovaState) (names : List String)
    (u : NovaUser) (net : Except String (List (String × FeatureVariantResponse)))
    (h : s.user = some u) :
    (names.filter (fun n => !isObjectLoaded s n) = [] →
        loadObjects s names false net = ⟨[], [], .ok []⟩)
  ∧ (names.filter (fun n => !isObjectLoaded s n) ≠ [] →
        (loadObjects s names false net).fetches.length = 1
      ∧ ∀ r ∈ (loadObjects s names false net).fetches,
          r.batchNames = some (names.filter (fun n => !isObjectLoaded s n)))
  ∧ (∀ data, net = Except.ok data →
        (∀ p ∈ data, p.1 ∈ names.filter (fun n => !isObjectLoaded s n)) →
        ∀ nm, isObjectLoaded s nm = true → ∀ now,
          lookupKey (applyActions now s
              (loadObjects s names false net).dispatched).objects nm
            = lookupKey s.objects nm) := by
  refine ⟨?_, ?_, ?_⟩
  · intro hf
    simp [loadObjects, h, hf]
  · intro hf
    cases net with
    | ok d =>
        simp [loadObjects, h, List.length_eq_zero, hf, Request.batchNames]
    | error e =>
        simp [loadObjects, h, List.length_eq_zero, hf, Request.batchNames]
  · intro data hdata hkeys nm hnm now
    subst hdata
    by_cases hf : names.filter (fun n => !isObjectLoaded s n) = []
    · simp [loadObjects, h, hf, applyActions]
    · have hne : ∀ p ∈ buildVariantMap data, p.1 ≠ nm := by
        intro p hp he
        rcases mem_buildVariantMapAux data [] p hp with h1 | ⟨p1, hp1, hpe⟩
        · cases h1
        · have : p1.1 ∈ names.filter (fun n => !isObjectLoaded s n) := hkeys p1 hp1
          have hload : (!isObjectLoaded s p1.1) = true := (List.mem_filter.mp this).2
          rw [hpe, he, hnm] at hload
          cases hload
      have hfold :
          (applyActions now s (loadObjects s names false (Except.ok data)).dispatched).objects
            = applyBulk now s.objects (buildVariantMap data) := by
        simp [loadObjects, h, List.length_eq_zero, hf, applyActions, novaReducer]
      rw [hfold, applyBulk_lookupKey_notMem now (buildVariantMap data) s.objects hne]

/-- C6 witness: requesting a loaded "a" and an unloaded "b" fetches only
the singleton batch {b}, and a response for "b" leaves the entry of "a"
unchanged. -/
theorem C6_witness :
    (∀ r ∈ (loadObjects sUser ["a", "b"] false
        (.ok [("b", ⟨"b", some [("k", "v")]⟩)])).fetches,
      r.batchNames = some ["b"])
  ∧ lookupKey (applyActions 7 sUser
        (loadObjects sUser ["a", "b"] false
          (.ok [("b", ⟨"b", some [("k", "v")]⟩)])).dispatched).objects "a"
      = lookupKey sUser.objects "a" :=
  ⟨((C6_loadObjects_filter_and_frame sUser ["a", "b"] user0
      (.ok [("b", ⟨"b", some [("k", "v")]⟩)]) rfl).2.1 (by decide)).2,
   (C6_loadObjects_filter_and_frame sUser ["a", "b"] user0
      (.ok [("b", ⟨"b", some [("k", "v")]⟩)]) rfl).2.2
      [("b", ⟨"b", some [("k", "v")]⟩)] rfl (by decide) "a" (by decide) 7⟩

/-- C7 counterexample: the skip path of `loadObject` dispatches nothing,
so starting from a state whose shared loading flag is already raised, the
operation returns (successfully) with the flag still true — refuting the
claim that the flag is false on every exit path. -/
theorem C7_counterexample :
    (loadObject sBusy "x" false (.error "unused")).result = .ok none
  ∧ (applyActions 0 sBusy
      (loadObject sBusy "x" false (.error "unused")).dispatched).isLoading = true := by
  exact ⟨rfl, rfl⟩

/-- C7 (amended): with a user set, whenever `loadObject` actually
attempts the fetch (forcing, or the name not loaded), a failing fetch
records a message carrying the original error in the shared error slot
and re-throws the original error, and on both the success and the error
path the loading flag is false once the dispatched actions are applied;
the skip path dispatches nothing and leaves the state exactly as it
was (so the flag keeps its prior value there). -/
theorem C7_loadObject_error_and_loading_flag (s : NovaState) (name : String)
    (force : Bool) (net : Except String FeatureVariantResponse)
    (u : NovaUser) (now : Nat) (h : s.user = some u) :
    (∀ e, net = .error e → (force = true ∨ isObjectLoaded s name = false) →
        (loadObject s name force net).result = .error e
      ∧ (applyActions now s (loadObject s name force net).dispatched).error
          = some ("Failed to load object \"" ++ name ++ "\": " ++ e)
      ∧ (applyActions now s (loadObject s name force net).dispatched).isLoading = false)
  ∧ (∀ d, net = .ok d → (force = true ∨ isObjectLoaded s name = false) →
        (applyActions now s (loadObject s name force net).dispatched).isLoading = false)
  ∧ (force = false → isObjectLoaded s name = true →
        (loadObject s name force net).dispatched = []
      ∧ applyActions now s (loadObject s name force net).dispatched = s) := by
  refine ⟨?_, ?_, ?_⟩
  · intro e hnet hatt
    subst hnet
    rcases hatt with hforce | hload
    · subst hforce
      refine ⟨by simp [loadObject, h], ?_, ?_⟩ <;>
        simp [loadObject, h, applyActions, novaReducer]
    · refine ⟨by simp [loadObject, h, hload], ?_, ?_⟩ <;>
        simp [loadObject, h, hload, applyActions, novaReducer]
  · intro d hnet hatt
    subst hnet
    rcases hatt with hforce | hload
    · subst hforce
      simp [loadObject, h, applyActions, novaReducer]
    · simp [loadObject, h, hload, applyActions, novaReducer]
  · intro hforce hload
    subst hforce
    exact ⟨by simp [loadObject, h, hload], by simp [loadObject, h, hload, applyActions]⟩

/-- C7 witness: a failing fetch for the unloaded "b" ends with the
original error re-thrown, the message recorded, and the loading flag
cleared. -/
theorem C7_witness :
    (loadObject sUser "b" false (.error "boom")).result = .error "boom"
  ∧ (applyActions 0 sUser
      (loadObject sUser "b" false (.error "boom")).dispatched).error
      = some ("Failed to load object \"" ++ "b" ++ "\": " ++ "boom")
  ∧ (applyActions 0 sUser
      (loadObject sUser "b" false (.error "boom")).dispatched).isLoading = false :=
  (C7_loadObject_error_and_loading_flag sUser "b" false (.error "boom") user0 0 rfl).1
    "boom" rfl (Or.inr (by decide))

/-- A sample 2xx response used by the C8 counterexample. -/
def okResp : FetchResponse Nat := ⟨200, "OK", 7⟩

/-- C8 counterexample: `callApi` spreads `options.headers` AFTER its
JSON default, so a caller header with the exact key "Content-Type"
overrides it — refuting the claim that a JSON content-type header is
sent for every options value. -/
theorem C8_counterexample :
    lookupKey (callApi "url" ⟨[("Content-Type", "text/plain")]⟩ okResp).sentHeaders
      "Content-Type" = some "text/plain" := by
  decide

/-- C8 (amended): when the caller headers do not themselves carry a
"Content-Type" key, the sent headers carry the JSON content-type; for
every non-2xx response the helper fails with an error carrying the
status code and status text; for every 2xx response it returns the
parsed body unchanged (no validation). -/
theorem C8_callApi_contract {α : Type} (url : String) (options : CallOptions)
    (response : FetchResponse α)
    (h : lookupKey options.headers "Content-Type" = none) :
    lookupKey (callApi url options response).sentHeaders "Content-Type"
      = some "application/json"
  ∧ (responseOk response.status = false →
      (callApi url options response).result
        = .error ("API error: " ++ toString response.status ++ " - "
            ++ response.statusText))
  ∧ (responseOk response.status = true →
      (callApi url options response).result = .ok response.body) := by
  refine ⟨?_, ?_, ?_⟩
  · have hmerge := lookupKey_mergeHeaders_notMem options.headers
      [("Content-Type", "application/json")] h
    by_cases hok : responseOk response.status
    · simpa [callApi, hok, lookupKey] using hmerge
    · simpa [callApi, hok, lookupKey] using hmerge
  · intro hok
    simp [callApi, hok]
  · intro hok
    simp [callApi, hok]

/-- C8 witness: the amended contract at a 404 response and a header map
without a content-type key. -/
theorem C8_witness :
    lookupKey (callApi "url" ⟨[("Authorization", "Bearer k")]⟩
        (⟨404, "Not Found", 0⟩ : FetchResponse Nat)).sentHeaders "Content-Type"
      = some "application/json"
  ∧ (callApi "url" ⟨[("Authorization", "Bearer k")]⟩
        (⟨404, "Not Found", 0⟩ : FetchResponse Nat)).result
      = .error ("API error: " ++ toString (404 : Nat) ++ " - " ++ "Not Found") :=
  ⟨(C8_callApi_contract "url" ⟨[("Authorization", "Bearer k")]⟩
      (⟨404, "Not Found", 0⟩ : FetchResponse Nat) (by decide)).1,
   (C8_callApi_contract "url" ⟨[("Authorization", "Bearer k")]⟩
      (⟨404, "Not Found", 0⟩ : FetchResponse Nat) (by decide)).2.1 (by decide)⟩

/-- C9: with a valid project, complete credentials and a parsed manifest
lacking the "experiences" section (or the "objects" section), the CLI
exits 1 with the descriptive message, without any sync POST and without
writing the registry file; with any credential missing, it exits 1
naming exactly the missing variables, before even reading the manifest
and with no network call. -/
theorem C9_cli_validation (env : CliEnv) (objs exps : List (String × Props)) :
    (env.packageJsonValid = true →
      env.config.orgId.isSome = true → env.config.appId.isSome = true →
      env.config.apiKey.isSome = true →
        (env.manifest = .parsed (some objs) none →
          runCli env = ⟨1, true, false, 0,
            some "nova-objects.json must have an \"experiences\" property with experience definitions"⟩)
      ∧ (env.manifest = .parsed none (some exps) →
          runCli env = ⟨1, true, false, 0,
            some "nova-objects.json must have an \"objects\" property with object definitions"⟩))
  ∧ (env.packageJsonValid = true →
      (env.config.orgId = none ∨ env.config.appId = none ∨ env.config.apiKey = none) →
        runCli env = ⟨1, false, false, 0,
          some ("Missing required configuration: "
            ++ String.intercalate ", " (missingVars env.config))⟩
      ∧ ("NOVA_ORG_ID" ∈ missingVars env.config ↔ env.config.orgId = none)
      ∧ ("NOVA_APP_ID" ∈ missingVars env.config ↔ env.config.appId = none)
      ∧ ("NOVA_API_KEY" ∈ missingVars env.config ↔ env.config.apiKey = none)) := by
  have hOrgApp : ("NOVA_ORG_ID" : String) ≠ "NOVA_APP_ID" := by decide
  have hOrgKey : ("NOVA_ORG_ID" : String) ≠ "NOVA_API_KEY" := by decide
  have hAppOrg : ("NOVA_APP_ID" : String) ≠ "NOVA_ORG_ID" := by decide
  have hAppKey : ("NOVA_APP_ID" : String) ≠ "NOVA_API_KEY" := by decide
  have hKeyOrg : ("NOVA_API_KEY" : String) ≠ "NOVA_ORG_ID" := by decide
  have hKeyApp : ("NOVA_API_KEY" : String) ≠ "NOVA_APP_ID" := by decide
  constructor
  · intro hp ho ha hk
    obtain ⟨o1, ho1⟩ := Option.isSome_iff_exists.mp ho
    obtain ⟨a1, ha1⟩ := Option.isSome_iff_exists.mp ha
    obtain ⟨k1, hk1⟩ := Option.isSome_iff_exists.mp hk
    constructor
    · intro hm
      simp [runCli, validateProject, loadObjectsFromJson, hp, ho1, ha1, hk1, hm]
    · intro hm
      simp [runCli, validateProject, loadObjectsFromJson, hp, ho1, ha1, hk1, hm]
  · intro hp hmiss
    have hmsg : runCli env = ⟨1, false, false, 0,
        some ("Missing required configuration: "
          ++ String.intercalate ", " (missingVars env.config))⟩ := by
      rcases hmiss with hc | hc | hc <;>
        simp [runCli, validateProject, hp, hc]
    refine ⟨hmsg, ?_, ?_, ?_⟩ <;>
      cases ho2 : env.config.orgId <;> cases ha2 : env.config.appId <;>
        cases hk2 : env.config.apiKey <;>
          simp [missingVars, ho2, ha2, hk2, hOrgApp, hOrgKey, hAppOrg, hAppKey,
            hKeyOrg, hKeyApp]

/-- A CLI environment with complete credentials and a manifest missing
its "experiences" section. -/
def envNoExp : CliEnv :=
  ⟨true, ⟨some "o", some "a", some "k", "https://api.nova.com"⟩,
   .parsed (some [("x", [("color", "red")])]) none, true⟩

/-- A CLI environment whose org id is missing. -/
def envMissing : CliEnv :=
  ⟨true, ⟨none, some "a", some "k", "https://api.nova.com"⟩, .absent, true⟩

/-- C9 witness: the theorem at an environment lacking "experiences" (CLI
fails before write and sync) and at one lacking the org id (CLI fails
before reading the manifest, naming NOVA_ORG_ID). -/
theorem C9_witness :
    runCli envNoExp = ⟨1, true, false, 0,
      some "nova-objects.json must have an \"experiences\" property with experience definitions"⟩
  ∧ runCli envMissing = ⟨1, false, false, 0,
      some ("Missing required configuration: "
        ++ String.intercalate ", " (missingVars envMissing.config))⟩
  ∧ ("NOVA_ORG_ID" ∈ missingVars envMissing.config ↔ envMissing.config.orgId = none) :=
  ⟨((C9_cli_validation envNoExp [("x", [("color", "red")])] []).1
      rfl rfl rfl rfl).1 rfl,
   ((C9_cli_validation envMissing [] []).2 rfl (Or.inl rfl)).1,
   ((C9_cli_validation envMissing [] []).2 rfl (Or.inl rfl)).2.1⟩

/-- C10: for a name absent from the cache, UPDATE_OBJECT_PROPS inserts a
brand-new entry that is marked loaded, carries the fetched props and the
fresh timestamp, but has no name and no default properties; so does
SET_BULK_OBJECTS when its payload carries the name; and the non-readOnly
`getNovaObject` miss path, which delegates to `loadObject`, creates
exactly such a defaults-less entry — the invariant that every cache
entry carries default properties is not preserved. -/
theorem C10_defaultsless_entries (s : NovaState) (nm : String) (p : Option Props)
    (q : Props) (payload : List (String × Props)) (now : Nat) (u : NovaUser)
    (fvr : FeatureVariantResponse)
    (h : lookupKey s.objects nm = none) :
    lookupKey (novaReducer now s (.updateObjectProps nm p)).objects nm
      = some ⟨none, none, p, true, some now⟩
  ∧ ((payload.map Prod.fst).Nodup → (nm, q) ∈ payload →
      lookupKey (novaReducer now s (.setBulkObjects payload)).objects nm
        = some ⟨none, none, some q, true, some now⟩)
  ∧ (s.user = some u →
      lookupKey (applyActions now s
          (getNovaObjectAsync s nm false (.ok fvr)).dispatched).objects nm
        = some ⟨none, none, fvr.variant_config, true, some now⟩) := by
  refine ⟨?_, ?_, ?_⟩
  · simp [novaReducer, h, lookupKey_setKey_self]
  · intro hnd hmem
    simp only [novaReducer]
    exact applyBulk_lookupKey_insert now nm q payload s.objects h hnd hmem
  · intro hu
    have hload : isObjectLoaded s nm = false := by simp [isObjectLoaded, h]
    simp [getNovaObjectAsync, loadObject, h, hu, hload, applyActions, novaReducer,
      lookupKey_setKey_self]

/-- C10 witness: starting from the initial empty cache, a single update,
a bulk update, and the `getNovaObject` miss path each create the
defaults-less entry. -/
theorem C10_witness :
    lookupKey (novaReducer 3 s0 (.updateObjectProps "x" (some [("k", "v")]))).objects "x"
      = some ⟨none, none, some [("k", "v")], true, some 3⟩
  ∧ lookupKey (novaReducer 3 s0 (.setBulkObjects [("x", [("a", "b")])])).objects "x"
      = some ⟨none, none, some [("a", "b")], true, some 3⟩
  ∧ lookupKey (applyActions 3 sUser
        (getNovaObjectAsync sUser "x" false (.ok ⟨"x", some [("c", "d")]⟩)).dispatched).objects "x"
      = some ⟨none, none, some [("c", "d")], true, some 3⟩ :=
  ⟨(C10_defaultsless_entries s0 "x" (some [("k", "v")]) [] [] 3 user0
      ⟨"x", none⟩ rfl).1,
   (C10_defaultsless_entries s0 "x" none [("a", "b")] [("x", [("a", "b")])] 3 user0
      ⟨"x", none⟩ rfl).2.1 (by decide) (by decide),
   (C10_defaultsless_entries sUser "x" none [] [] 3 user0
      ⟨"x", some [("c", "d")]⟩ (by decide)).2.2 rfl⟩

end Nova
